import Mathlib

/-
Verification of the Embla JWT cookie relay and cookie authenticator.

Shallow embedding of:
  src/embla/users/api/jwt_views.py        (CookieTokenObtainPairView,
                                           CookieTokenRefreshView,
                                           CookieTokenVerifyView)
  src/embla/users/api/authentication.py   (CookieJWTAuthentication)
  src/embla/users/api/views.py            (logout)

Modelling choices:
  - Python dicts (request.data, request.COOKIES, response.data) are
    association lists of string keys and string values, queried through
    dictGet, mutated through dictSet and dictPop, matching dict.get,
    dict assignment and dict.pop with a default.
  - Python truthiness of an optional string (absent or empty both falsy)
    is the function truthy.
  - The delegated simplejwt view (super().post) is an abstract parameter
    of type Request -> IssuerResult: a status code and a response body. The DRF
    response it returns carries no cookies; toResponse wraps it.
  - timedelta(minutes=60).total_seconds() and timedelta(days=1).total_seconds()
    are the naturals 3600 and 86400.
  - settings.DEBUG is a Bool parameter named debug.
  - Exceptions in the authenticator are an Except monad; InvalidToken is
    one constructor of AuthError and every other exception is the other.
-/

namespace Embla

/-- A Python dict with string keys and values, as an association list. -/
abbrev Dict := List (String × String)

/-- dict.get: the value bound to a key, if any (first binding wins). -/
def dictGet (d : Dict) (k : String) : Option String :=
  match d with
  | [] => none
  | (k₁, v) :: rest => if k₁ = k then some v else dictGet rest k

/-- dict.pop with a default: remove every binding of the key. -/
def dictPop (d : Dict) (k : String) : Dict :=
  d.filter (fun p => p.1 ≠ k)

/-- dict assignment: bind the key to the value, dropping any old binding. -/
def dictSet (d : Dict) (k v : String) : Dict :=
  dictPop d k ++ [(k, v)]

/-- Python truthiness of an optional string: absent and empty are falsy. -/
def truthy : Option String → Bool
  | none => false
  | some v => v != ""

/-- A cookie written onto a response by response.set_cookie. -/
structure SetCookie where
  key : String
  value : String
  httponly : Bool
  secure : Bool
  samesite : String
  maxAge : Nat
deriving Repr, DecidableEq

/-- An HTTP response: status, body data, cookies written and deleted. -/
structure Response where
  status : Nat
  data : Dict
  cookies : List SetCookie
  deletedCookies : List String
deriving Repr, DecidableEq

/-- An inbound request: its COOKIES mapping and its parsed data. -/
structure Request where
  cookies : Dict
  data : Dict
deriving Repr, DecidableEq

/-- What the delegated simplejwt view returns: a status and body data. -/
structure IssuerResult where
  status : Nat
  data : Dict
deriving Repr, DecidableEq

/-- HTTPStatus.OK. -/
def HTTPStatus_OK : Nat := 200

/-- The DRF response built from the delegated view, before cookie writes. -/
def toResponse (r : IssuerResult) : Response :=
  { status := r.status, data := r.data, cookies := [], deletedCookies := [] }

/-- response.set_cookie. -/
def set_cookie (r : Response) (key value : String) (httponly secure : Bool)
    (samesite : String) (maxAge : Nat) : Response :=
  { r with cookies := r.cookies ++ [⟨key, value, httponly, secure, samesite, maxAge⟩] }

/-- response.delete_cookie. -/
def delete_cookie (r : Response) (key : String) : Response :=
  { r with deletedCookies := r.deletedCookies ++ [key] }

/-- CookieTokenObtainPairView.post (jwt_views.py lines 13-44): delegate to
the Token Issuer; on status OK set each returned token as a cookie, strip
both token fields from the body and add the success detail. -/
def CookieTokenObtainPairView.post (debug : Bool) (issuer : Request → IssuerResult)
    (request : Request) : Response :=
  let response := toResponse (issuer request)
  if response.status = HTTPStatus_OK then
    let access_token := dictGet response.data "access"
    let refresh_token := dictGet response.data "refresh"
    let response :=
      if truthy access_token then
        set_cookie response "access_token" (access_token.getD "")
          true (!debug) "Strict" 3600
      else response
    let response :=
      if truthy refresh_token then
        set_cookie response "refresh_token" (refresh_token.getD "")
          true (!debug) "Strict" 86400
      else response
    { response with
        data := dictSet (dictPop (dictPop response.data "access") "refresh")
          "detail" "Login successful" }
  else
    response

/-- The cookie-to-body injection at the start of CookieTokenRefreshView.post
(jwt_views.py lines 50-53): a truthy refresh_token cookie is written into the
request body under the key refresh. -/
def CookieTokenRefreshView.injectCookie (request : Request) : Request :=
  let refresh_token := dictGet request.cookies "refresh_token"
  if truthy refresh_token then
    { request with data := dictSet request.data "refresh" (refresh_token.getD "") }
  else request

/-- CookieTokenRefreshView.post (jwt_views.py lines 46-74): inject the
refresh_token cookie into the body, delegate, and on status OK set the new
access token as a cookie, strip it from the body and add the detail. -/
def CookieTokenRefreshView.post (debug : Bool) (issuer : Request → IssuerResult)
    (request : Request) : Response :=
  let request := CookieTokenRefreshView.injectCookie request
  let response := toResponse (issuer request)
  if response.status = HTTPStatus_OK then
    let access_token := dictGet response.data "access"
    let response :=
      if truthy access_token then
        set_cookie response "access_token" (access_token.getD "")
          true (!debug) "Strict" 3600
      else response
    { response with
        data := dictSet (dictPop response.data "access") "detail" "Token refreshed" }
  else
    response

/-- The cookie-to-body injection in CookieTokenVerifyView.post (jwt_views.py
lines 83-85): a truthy access_token cookie is written into the request body
under the key token. -/
def CookieTokenVerifyView.injectCookie (request : Request) : Request :=
  let access_token := dictGet request.cookies "access_token"
  if truthy access_token then
    { request with data := dictSet request.data "token" (access_token.getD "") }
  else request

/-- CookieTokenVerifyView.post (jwt_views.py lines 77-87): inject the
access_token cookie into the body and delegate, returning the delegated
response with no post-processing. -/
def CookieTokenVerifyView.post (issuer : Request → IssuerResult)
    (request : Request) : Response :=
  toResponse (issuer (CookieTokenVerifyView.injectCookie request))

/-- logout (views.py lines 40-47): build the fixed success response and
delete both token cookies on it, whatever the request held. -/
def logout (_request : Request) : Response :=
  let response : Response :=
    { status := 200, data := [("detail", "Logged out")],
      cookies := [], deletedCookies := [] }
  delete_cookie (delete_cookie response "access_token") "refresh_token"

/-- Exceptions the Token Issuer machinery may raise during authentication:
the InvalidToken exception, or any other exception (carrying a message). -/
inductive AuthError where
  | invalidToken
  | other (msg : String)
deriving Repr, DecidableEq

/-- The pieces of JWTAuthentication the cookie authenticator calls into:
get_validated_token, get_user, and the inherited header-based authenticate.
Each models a Python call that returns or raises. -/
structure TokenIssuer where
  get_validated_token : String → Except AuthError String
  get_user : String → Except AuthError Nat
  headerAuthenticate : Request → Except AuthError (Option (Nat × String))

/-- CookieJWTAuthentication.authenticate (authentication.py lines 8-23):
without a truthy access_token cookie, fall back to header authentication;
otherwise validate and resolve the user, swallowing only InvalidToken into
an anonymous (none) result and propagating every other exception. -/
def CookieJWTAuthentication.authenticate (self : TokenIssuer)
    (request : Request) : Except AuthError (Option (Nat × String)) :=
  let access_token := dictGet request.cookies "access_token"
  if !truthy access_token then
    self.headerAuthenticate request
  else
    match self.get_validated_token (access_token.getD "") with
    | .error .invalidToken => .ok none
    | .error e => .error e
    | .ok validated_token =>
      match self.get_user validated_token with
      | .error .invalidToken => .ok none
      | .error e => .error e
      | .ok user => .ok (some (user, validated_token))

/-! Lemmas about the dict operations. -/

theorem dictGet_dictPop (d : Dict) (k k₁ : String) :
    dictGet (dictPop d k) k₁ = if k₁ = k then none else dictGet d k₁ := by
  induction d with
  | nil => simp [dictPop, dictGet]
  | cons p rest ih =>
    obtain ⟨k₂, v⟩ := p
    simp only [dictPop, List.filter_cons] at *
    by_cases h₂ : k₂ = k <;> by_cases h₁ : k₂ = k₁ <;>
      simp_all [dictGet]

theorem dictGet_append (d₁ d₂ : Dict) (k : String) :
    dictGet (d₁ ++ d₂) k =
      match dictGet d₁ k with
      | some v => some v
      | none => dictGet d₂ k := by
  induction d₁ with
  | nil => simp [dictGet]
  | cons p rest ih =>
    obtain ⟨k₁, v⟩ := p
    by_cases h : k₁ = k <;> simp [dictGet, h, ih]

theorem dictGet_dictSet (d : Dict) (k v k₁ : String) :
    dictGet (dictSet d k v) k₁ = if k₁ = k then some v else dictGet d k₁ := by
  unfold dictSet
  rw [dictGet_append, dictGet_dictPop]
  by_cases h : k₁ = k
  · simp [dictGet, h]
  · have h₁ : k ≠ k₁ := fun hh => h hh.symm
    simp only [if_neg h, dictGet, if_neg h₁]
    cases dictGet d k₁ <;> rfl

/-! Characterizations of each view on the two status branches, shared by the
claim proofs below. -/

theorem obtainPair_post_ok_eq (debug : Bool) (issuer : Request → IssuerResult)
    (request : Request) (hok : (issuer request).status = HTTPStatus_OK) :
    CookieTokenObtainPairView.post debug issuer request =
      { status := HTTPStatus_OK,
        data := dictSet (dictPop (dictPop (issuer request).data "access")
          "refresh") "detail" "Login successful",
        cookies :=
          (if truthy (dictGet (issuer request).data "access") then
            [⟨"access_token", (dictGet (issuer request).data "access").getD "",
              true, !debug, "Strict", 3600⟩] else []) ++
          (if truthy (dictGet (issuer request).data "refresh") then
            [⟨"refresh_token", (dictGet (issuer request).data "refresh").getD "",
              true, !debug, "Strict", 86400⟩] else []),
        deletedCookies := [] } := by
  unfold CookieTokenObtainPairView.post
  simp only [toResponse, hok]
  split_ifs <;> simp_all [set_cookie]

theorem obtainPair_post_err_eq (debug : Bool) (issuer : Request → IssuerResult)
    (request : Request) (hne : (issuer request).status ≠ HTTPStatus_OK) :
    CookieTokenObtainPairView.post debug issuer request =
      toResponse (issuer request) := by
  unfold CookieTokenObtainPairView.post
  simp [toResponse, hne]

theorem refresh_post_ok_eq (debug : Bool) (issuer : Request → IssuerResult)
    (request : Request)
    (hok : (issuer (CookieTokenRefreshView.injectCookie request)).status
      = HTTPStatus_OK) :
    CookieTokenRefreshView.post debug issuer request =
      { status := HTTPStatus_OK,
        data := dictSet (dictPop
          (issuer (CookieTokenRefreshView.injectCookie request)).data "access")
          "detail" "Token refreshed",
        cookies :=
          (if truthy (dictGet
              (issuer (CookieTokenRefreshView.injectCookie request)).data
              "access") then
            [⟨"access_token",
              (dictGet (issuer
                (CookieTokenRefreshView.injectCookie request)).data
                "access").getD "",
              true, !debug, "Strict", 3600⟩] else []),
        deletedCookies := [] } := by
  unfold CookieTokenRefreshView.post
  simp only [toResponse, hok]
  split_ifs <;> simp_all [set_cookie]

theorem refresh_post_err_eq (debug : Bool) (issuer : Request → IssuerResult)
    (request : Request)
    (hne : (issuer (CookieTokenRefreshView.injectCookie request)).status
      ≠ HTTPStatus_OK) :
    CookieTokenRefreshView.post debug issuer request =
      toResponse (issuer (CookieTokenRefreshView.injectCookie request)) := by
  unfold CookieTokenRefreshView.post
  simp [toResponse, hne]

/-! The claim theorems. -/

/-- C1: an issuance whose delegated Token Issuer response has status OK and
carries nonempty access and refresh tokens in its body returns a response
whose body has no access or refresh field and a detail field equal to
Login successful, and on which both an access_token and a refresh_token
cookie are set with httpOnly and sameSite Strict, holding the token values
read from the issuer body. -/
theorem C1_issue_success_sets_cookies_and_strips_body
    (debug : Bool) (issuer : Request → IssuerResult) (request : Request)
    (a r : String)
    (hok : (issuer request).status = HTTPStatus_OK)
    (ha : dictGet (issuer request).data "access" = some a) (ha₁ : a ≠ "")
    (hr : dictGet (issuer request).data "refresh" = some r) (hr₁ : r ≠ "") :
    dictGet (CookieTokenObtainPairView.post debug issuer request).data "access"
        = none ∧
    dictGet (CookieTokenObtainPairView.post debug issuer request).data "refresh"
        = none ∧
    dictGet (CookieTokenObtainPairView.post debug issuer request).data "detail"
        = some "Login successful" ∧
    (∃ c ∈ (CookieTokenObtainPairView.post debug issuer request).cookies,
      c.key = "access_token" ∧ c.value = a ∧ c.httponly = true ∧
        c.samesite = "Strict") ∧
    (∃ c ∈ (CookieTokenObtainPairView.post debug issuer request).cookies,
      c.key = "refresh_token" ∧ c.value = r ∧ c.httponly = true ∧
        c.samesite = "Strict") := by
  have hpost : CookieTokenObtainPairView.post debug issuer request =
      { status := HTTPStatus_OK,
        data := dictSet (dictPop (dictPop (issuer request).data "access")
          "refresh") "detail" "Login successful",
        cookies := [⟨"access_token", a, true, !debug, "Strict", 3600⟩,
                    ⟨"refresh_token", r, true, !debug, "Strict", 86400⟩],
        deletedCookies := [] } := by
    unfold CookieTokenObtainPairView.post
    simp [toResponse, set_cookie, hok, ha, hr, truthy, ha₁, hr₁]
  rw [hpost]
  refine ⟨?_, ?_, ?_, ?_, ?_⟩ <;>
    simp [dictGet_dictSet, dictGet_dictPop]

/-- Witness for C1 at a concrete issuer, request and tokens. -/
theorem C1_witness :
    dictGet (CookieTokenObtainPairView.post false
      (fun _ => ⟨200, [("access", "tokA"), ("refresh", "tokR")]⟩)
      ⟨[], []⟩).data "access" = none ∧
    dictGet (CookieTokenObtainPairView.post false
      (fun _ => ⟨200, [("access", "tokA"), ("refresh", "tokR")]⟩)
      ⟨[], []⟩).data "refresh" = none ∧
    dictGet (CookieTokenObtainPairView.post false
      (fun _ => ⟨200, [("access", "tokA"), ("refresh", "tokR")]⟩)
      ⟨[], []⟩).data "detail" = some "Login successful" ∧
    (∃ c ∈ (CookieTokenObtainPairView.post false
      (fun _ => ⟨200, [("access", "tokA"), ("refresh", "tokR")]⟩)
      ⟨[], []⟩).cookies,
      c.key = "access_token" ∧ c.value = "tokA" ∧ c.httponly = true ∧
        c.samesite = "Strict") ∧
    (∃ c ∈ (CookieTokenObtainPairView.post false
      (fun _ => ⟨200, [("access", "tokA"), ("refresh", "tokR")]⟩)
      ⟨[], []⟩).cookies,
      c.key = "refresh_token" ∧ c.value = "tokR" ∧ c.httponly = true ∧
        c.samesite = "Strict") :=
  C1_issue_success_sets_cookies_and_strips_body false
    (fun _ => ⟨200, [("access", "tokA"), ("refresh", "tokR")]⟩) ⟨[], []⟩
    "tokA" "tokR" rfl rfl (by decide) rfl (by decide)

/-- C2 counterexample: the claimed invariant fails at two concrete inputs.
When the Token Issuer answers a refresh with status OK and a rotated refresh
token in the body, the relayed body still holds that raw refresh token; and
when the Token Issuer answers an issuance with a non-OK status whose body
holds a token, the relayed body still holds it. -/
theorem C2_counterexample_tokens_remain_in_body :
    dictGet (CookieTokenRefreshView.post false
      (fun _ => ⟨200, [("access", "newA"), ("refresh", "rotR")]⟩)
      ⟨[], []⟩).data "refresh" = some "rotR" ∧
    dictGet (CookieTokenObtainPairView.post false
      (fun _ => ⟨401, [("access", "leakA")]⟩)
      ⟨[], []⟩).data "access" = some "leakA" :=
  ⟨rfl, rfl⟩

/-- C2 amended: when the relayed response has status OK, the issuance body
holds no access or refresh field and the refresh body holds no access field;
a refresh field the Token Issuer returns from a refresh, and any token field
of a non-OK response, pass through into the body unchanged. -/
theorem C2_ok_bodies_hold_no_stripped_tokens (debug : Bool)
    (issuer : Request → IssuerResult) (request : Request) :
    ((CookieTokenObtainPairView.post debug issuer request).status
        = HTTPStatus_OK →
      dictGet (CookieTokenObtainPairView.post debug issuer request).data
        "access" = none ∧
      dictGet (CookieTokenObtainPairView.post debug issuer request).data
        "refresh" = none) ∧
    ((CookieTokenRefreshView.post debug issuer request).status
        = HTTPStatus_OK →
      dictGet (CookieTokenRefreshView.post debug issuer request).data
        "access" = none) := by
  constructor
  · intro hst
    by_cases hok : (issuer request).status = HTTPStatus_OK
    · rw [obtainPair_post_ok_eq debug issuer request hok]
      simp [dictGet_dictSet, dictGet_dictPop]
    · rw [obtainPair_post_err_eq debug issuer request hok] at hst
      exact absurd hst hok
  · intro hst
    by_cases hok : (issuer (CookieTokenRefreshView.injectCookie request)).status
        = HTTPStatus_OK
    · rw [refresh_post_ok_eq debug issuer request hok]
      simp [dictGet_dictSet, dictGet_dictPop]
    · rw [refresh_post_err_eq debug issuer request hok] at hst
      exact absurd hst hok

/-- Witness for the amended C2 at a concrete OK issuer. -/
theorem C2_witness :
    dictGet (CookieTokenObtainPairView.post false
      (fun _ => ⟨200, [("access", "a"), ("refresh", "r")]⟩)
      ⟨[], []⟩).data "access" = none ∧
    dictGet (CookieTokenObtainPairView.post false
      (fun _ => ⟨200, [("access", "a"), ("refresh", "r")]⟩)
      ⟨[], []⟩).data "refresh" = none ∧
    dictGet (CookieTokenRefreshView.post false
      (fun _ => ⟨200, [("access", "a"), ("refresh", "r")]⟩)
      ⟨[], []⟩).data "access" = none :=
  ⟨((C2_ok_bodies_hold_no_stripped_tokens false
      (fun _ => ⟨200, [("access", "a"), ("refresh", "r")]⟩) ⟨[], []⟩).1 rfl).1,
   ((C2_ok_bodies_hold_no_stripped_tokens false
      (fun _ => ⟨200, [("access", "a"), ("refresh", "r")]⟩) ⟨[], []⟩).1 rfl).2,
   (C2_ok_bodies_hold_no_stripped_tokens false
      (fun _ => ⟨200, [("access", "a"), ("refresh", "r")]⟩) ⟨[], []⟩).2 rfl⟩

/-- C3: with a nonempty access_token cookie, an InvalidToken error from
validation or from user resolution makes authenticate return no identity
with no error surfaced, while any other error from either call propagates
to the caller. -/
theorem C3_invalid_token_swallowed_others_propagate
    (self : TokenIssuer) (request : Request) (t : String)
    (hc : dictGet request.cookies "access_token" = some t) (ht : t ≠ "") :
    (self.get_validated_token t = .error .invalidToken →
      CookieJWTAuthentication.authenticate self request = .ok none) ∧
    (∀ msg, self.get_validated_token t = .error (.other msg) →
      CookieJWTAuthentication.authenticate self request
        = .error (.other msg)) ∧
    (∀ vt, self.get_validated_token t = .ok vt →
      ((self.get_user vt = .error .invalidToken →
        CookieJWTAuthentication.authenticate self request = .ok none) ∧
       (∀ msg, self.get_user vt = .error (.other msg) →
        CookieJWTAuthentication.authenticate self request
          = .error (.other msg)))) := by
  refine ⟨?_, ?_, ?_⟩
  · intro h
    simp [CookieJWTAuthentication.authenticate, hc, truthy, ht, h]
  · intro msg h
    simp [CookieJWTAuthentication.authenticate, hc, truthy, ht, h]
  · intro vt h
    refine ⟨?_, ?_⟩
    · intro hu
      simp [CookieJWTAuthentication.authenticate, hc, truthy, ht, h, hu]
    · intro msg hu
      simp [CookieJWTAuthentication.authenticate, hc, truthy, ht, h, hu]

/-- Witness for C3: a concrete invalid token resolves to anonymous, and a
concrete distinct error propagates. -/
theorem C3_witness :
    CookieJWTAuthentication.authenticate
      ⟨fun _ => .error .invalidToken, fun _ => .ok 0, fun _ => .ok none⟩
      ⟨[("access_token", "bad")], []⟩ = .ok none ∧
    CookieJWTAuthentication.authenticate
      ⟨fun _ => .error (.other "boom"), fun _ => .ok 0, fun _ => .ok none⟩
      ⟨[("access_token", "bad")], []⟩ = .error (.other "boom") :=
  ⟨(C3_invalid_token_swallowed_others_propagate
      ⟨fun _ => .error .invalidToken, fun _ => .ok 0, fun _ => .ok none⟩
      ⟨[("access_token", "bad")], []⟩ "bad" rfl (by decide)).1 rfl,
   (C3_invalid_token_swallowed_others_propagate
      ⟨fun _ => .error (.other "boom"), fun _ => .ok 0, fun _ => .ok none⟩
      ⟨[("access_token", "bad")], []⟩ "bad" rfl (by decide)).2.1 "boom" rfl⟩

/-- C4: an issuance whose delegated Token Issuer response has a non-OK
status is returned with the issuer status and body unchanged and with no
cookies set on it. -/
theorem C4_issue_failure_passthrough (debug : Bool)
    (issuer : Request → IssuerResult) (request : Request)
    (hne : (issuer request).status ≠ HTTPStatus_OK) :
    (CookieTokenObtainPairView.post debug issuer request).status
        = (issuer request).status ∧
    (CookieTokenObtainPairView.post debug issuer request).data
        = (issuer request).data ∧
    (CookieTokenObtainPairView.post debug issuer request).cookies = [] := by
  rw [obtainPair_post_err_eq debug issuer request hne]
  exact ⟨rfl, rfl, rfl⟩

/-- Witness for C4 at a concrete 401 issuer response. -/
theorem C4_witness :
    (CookieTokenObtainPairView.post false
      (fun _ => ⟨401, [("detail", "bad credentials")]⟩) ⟨[], []⟩).status
        = 401 ∧
    (CookieTokenObtainPairView.post false
      (fun _ => ⟨401, [("detail", "bad credentials")]⟩) ⟨[], []⟩).data
        = [("detail", "bad credentials")] ∧
    (CookieTokenObtainPairView.post false
      (fun _ => ⟨401, [("detail", "bad credentials")]⟩) ⟨[], []⟩).cookies
        = [] :=
  C4_issue_failure_passthrough false
    (fun _ => ⟨401, [("detail", "bad credentials")]⟩) ⟨[], []⟩ (by decide)

/-- C5 counterexample: a refresh_token cookie present with the empty string
as its value is not injected — the request body keeps its own refresh value
instead of the cookie value. -/
theorem C5_counterexample_empty_cookie_not_injected :
    dictGet (⟨[("refresh_token", "")], [("refresh", "x")]⟩
      : Request).cookies "refresh_token" = some "" ∧
    dictGet (CookieTokenRefreshView.injectCookie
      ⟨[("refresh_token", "")], [("refresh", "x")]⟩).data "refresh"
        = some "x" :=
  ⟨rfl, rfl⟩

/-- C5 amended: a refresh_token cookie present with a nonempty value is
forwarded to the Token Issuer under the body key refresh, overriding any
value already there and leaving every other body key unchanged; when the
cookie is absent or its value is empty, the body is forwarded unmodified. -/
theorem C5_refresh_cookie_overrides_body (request : Request) :
    (∀ v, dictGet request.cookies "refresh_token" = some v → v ≠ "" →
      dictGet (CookieTokenRefreshView.injectCookie request).data "refresh"
          = some v ∧
      ∀ k, k ≠ "refresh" →
        dictGet (CookieTokenRefreshView.injectCookie request).data k
          = dictGet request.data k) ∧
    ((dictGet request.cookies "refresh_token" = none ∨
      dictGet request.cookies "refresh_token" = some "") →
      CookieTokenRefreshView.injectCookie request = request) := by
  constructor
  · intro v hv hne
    unfold CookieTokenRefreshView.injectCookie
    constructor
    · simp [hv, truthy, hne, dictGet_dictSet]
    · intro k hk
      simp [hv, truthy, hne, dictGet_dictSet, hk]
  · intro h
    unfold CookieTokenRefreshView.injectCookie
    rcases h with h | h <;> simp [h, truthy]

/-- Witness for the amended C5: a concrete nonempty cookie overrides the
body, and a concrete cookieless request passes through unmodified. -/
theorem C5_witness :
    dictGet (CookieTokenRefreshView.injectCookie
      ⟨[("refresh_token", "tok")], [("refresh", "old")]⟩).data "refresh"
        = some "tok" ∧
    CookieTokenRefreshView.injectCookie ⟨[], [("refresh", "old")]⟩
        = ⟨[], [("refresh", "old")]⟩ :=
  ⟨((C5_refresh_cookie_overrides_body
      ⟨[("refresh_token", "tok")], [("refresh", "old")]⟩).1 "tok" rfl
      (by decide)).1,
   (C5_refresh_cookie_overrides_body ⟨[], [("refresh", "old")]⟩).2
      (Or.inl rfl)⟩

/-- C6 counterexample: an access_token cookie present with the empty string
as its value is not injected — the verify request body keeps its own token
value instead of the cookie value. -/
theorem C6_counterexample_empty_cookie_not_injected :
    dictGet (⟨[("access_token", "")], [("token", "x")]⟩
      : Request).cookies "access_token" = some "" ∧
    dictGet (CookieTokenVerifyView.injectCookie
      ⟨[("access_token", "")], [("token", "x")]⟩).data "token" = some "x" :=
  ⟨rfl, rfl⟩

/-- C6 amended: an access_token cookie present with a nonempty value is
injected into the verify request body under the key token, overriding any
existing value; in every case the Token Issuer verification response is
returned verbatim, with no cookie writes and no body changes. -/
theorem C6_verify_injects_and_delegates_verbatim
    (issuer : Request → IssuerResult) (request : Request) :
    (∀ v, dictGet request.cookies "access_token" = some v → v ≠ "" →
      dictGet (CookieTokenVerifyView.injectCookie request).data "token"
        = some v) ∧
    (CookieTokenVerifyView.post issuer request).status
        = (issuer (CookieTokenVerifyView.injectCookie request)).status ∧
    (CookieTokenVerifyView.post issuer request).data
        = (issuer (CookieTokenVerifyView.injectCookie request)).data ∧
    (CookieTokenVerifyView.post issuer request).cookies = [] ∧
    (CookieTokenVerifyView.post issuer request).deletedCookies = [] := by
  refine ⟨?_, rfl, rfl, rfl, rfl⟩
  intro v hv hne
  unfold CookieTokenVerifyView.injectCookie
  simp [hv, truthy, hne, dictGet_dictSet]

/-- Witness for the amended C6 at a concrete cookie and issuer. -/
theorem C6_witness :
    dictGet (CookieTokenVerifyView.injectCookie
      ⟨[("access_token", "tok")], [("token", "old")]⟩).data "token"
        = some "tok" ∧
    (CookieTokenVerifyView.post (fun _ => ⟨200, []⟩)
      ⟨[("access_token", "tok")], [("token", "old")]⟩).cookies = [] :=
  ⟨(C6_verify_injects_and_delegates_verbatim (fun _ => ⟨200, []⟩)
      ⟨[("access_token", "tok")], [("token", "old")]⟩).1 "tok" rfl (by decide),
   (C6_verify_injects_and_delegates_verbatim (fun _ => ⟨200, []⟩)
      ⟨[("access_token", "tok")], [("token", "old")]⟩).2.2.2.1⟩

/-- C7: every cookie written by the issuance or refresh relay has httpOnly
true, secure exactly when debug mode is off, sameSite Strict, and max-age
3600 for the access_token cookie and 86400 for the refresh_token cookie. -/
theorem C7_cookie_attributes (debug : Bool) (issuer : Request → IssuerResult)
    (request : Request) (c : SetCookie)
    (h : c ∈ (CookieTokenObtainPairView.post debug issuer request).cookies ∨
         c ∈ (CookieTokenRefreshView.post debug issuer request).cookies) :
    c.httponly = true ∧ c.secure = !debug ∧ c.samesite = "Strict" ∧
    ((c.key = "access_token" ∧ c.maxAge = 3600) ∨
     (c.key = "refresh_token" ∧ c.maxAge = 86400)) := by
  rcases h with h | h
  · by_cases hok : (issuer request).status = HTTPStatus_OK
    · rw [obtainPair_post_ok_eq debug issuer request hok] at h
      split_ifs at h <;> simp at h <;>
        rcases h with rfl | rfl <;> simp
    · rw [obtainPair_post_err_eq debug issuer request hok] at h
      simp [toResponse] at h
  · by_cases hok : (issuer (CookieTokenRefreshView.injectCookie
        request)).status = HTTPStatus_OK
    · rw [refresh_post_ok_eq debug issuer request hok] at h
      split_ifs at h
      · simp at h
        rcases h with rfl
        simp
      · simp at h
    · rw [refresh_post_err_eq debug issuer request hok] at h
      simp [toResponse] at h

/-- Witness for C7: the access cookie written by a concrete issuance. -/
theorem C7_witness :
    (⟨"access_token", "a", true, true, "Strict", 3600⟩
      : SetCookie).httponly = true ∧
    (⟨"access_token", "a", true, true, "Strict", 3600⟩
      : SetCookie).secure = !false ∧
    (⟨"access_token", "a", true, true, "Strict", 3600⟩
      : SetCookie).samesite = "Strict" ∧
    (((⟨"access_token", "a", true, true, "Strict", 3600⟩
        : SetCookie).key = "access_token" ∧
      (⟨"access_token", "a", true, true, "Strict", 3600⟩
        : SetCookie).maxAge = 3600) ∨
     ((⟨"access_token", "a", true, true, "Strict", 3600⟩
        : SetCookie).key = "refresh_token" ∧
      (⟨"access_token", "a", true, true, "Strict", 3600⟩
        : SetCookie).maxAge = 86400)) :=
  C7_cookie_attributes false (fun _ => ⟨200, [("access", "a")]⟩) ⟨[], []⟩
    ⟨"access_token", "a", true, true, "Strict", 3600⟩ (Or.inl (by decide))

/-- C8: logout, whatever the request and its cookies, returns the fixed
success response with body detail Logged out and deletes both the
access_token and the refresh_token cookie; in this embedding logout is a
pure function of the request, changing no server-side state. -/
theorem C8_logout_clears_cookies (request : Request) :
    logout request =
      { status := 200, data := [("detail", "Logged out")],
        cookies := [],
        deletedCookies := ["access_token", "refresh_token"] } :=
  rfl

/-- C9: an access_token cookie whose value is the empty string behaves as an
absent cookie: the authenticator falls back to header-based resolution and
returns its result, and the verify view forwards the request body without
injecting the empty value. -/
theorem C9_empty_access_cookie_like_absent (self : TokenIssuer)
    (issuer : Request → IssuerResult) (request : Request)
    (h : dictGet request.cookies "access_token" = some "") :
    CookieJWTAuthentication.authenticate self request
        = self.headerAuthenticate request ∧
    CookieTokenVerifyView.injectCookie request = request ∧
    CookieTokenVerifyView.post issuer request = toResponse (issuer request) := by
  have hf : truthy (dictGet request.cookies "access_token") = false := by
    simp [h, truthy]
  have hinj : CookieTokenVerifyView.injectCookie request = request := by
    unfold CookieTokenVerifyView.injectCookie
    simp [hf]
  refine ⟨?_, hinj, ?_⟩
  · unfold CookieJWTAuthentication.authenticate
    simp [hf]
  · unfold CookieTokenVerifyView.post
    rw [hinj]

/-- Witness for C9 at a concrete empty cookie, header authenticator and
issuer. -/
theorem C9_witness :
    CookieJWTAuthentication.authenticate
      ⟨fun _ => .ok "v", fun _ => .ok 7, fun _ => .ok (some (7, "hdr"))⟩
      ⟨[("access_token", "")], []⟩ = .ok (some (7, "hdr")) ∧
    CookieTokenVerifyView.injectCookie ⟨[("access_token", "")], []⟩
        = ⟨[("access_token", "")], []⟩ ∧
    CookieTokenVerifyView.post (fun _ => ⟨200, [("detail", "ok")]⟩)
      ⟨[("access_token", "")], []⟩
        = toResponse ⟨200, [("detail", "ok")]⟩ :=
  C9_empty_access_cookie_like_absent
    ⟨fun _ => .ok "v", fun _ => .ok 7, fun _ => .ok (some (7, "hdr"))⟩
    (fun _ => ⟨200, [("detail", "ok")]⟩) ⟨[("access_token", "")], []⟩ rfl

/-- C10: an OK Token Issuer response missing a token field, or carrying an
empty value for it, raises no error (the relay is a total function), sets no
cookie for that token, and still yields a body stripped of the token fields
and carrying the success detail message. -/
theorem C10_missing_token_field_tolerated (debug : Bool)
    (issuer : Request → IssuerResult) (request : Request) :
    ((issuer request).status = HTTPStatus_OK →
      (truthy (dictGet (issuer request).data "access") = false →
        "access_token" ∉ (CookieTokenObtainPairView.post debug issuer
          request).cookies.map (fun c => c.key)) ∧
      (truthy (dictGet (issuer request).data "refresh") = false →
        "refresh_token" ∉ (CookieTokenObtainPairView.post debug issuer
          request).cookies.map (fun c => c.key)) ∧
      dictGet (CookieTokenObtainPairView.post debug issuer request).data
        "access" = none ∧
      dictGet (CookieTokenObtainPairView.post debug issuer request).data
        "refresh" = none ∧
      dictGet (CookieTokenObtainPairView.post debug issuer request).data
        "detail" = some "Login successful") ∧
    ((issuer (CookieTokenRefreshView.injectCookie request)).status
        = HTTPStatus_OK →
      (truthy (dictGet (issuer (CookieTokenRefreshView.injectCookie
          request)).data "access") = false →
        (CookieTokenRefreshView.post debug issuer request).cookies = []) ∧
      dictGet (CookieTokenRefreshView.post debug issuer request).data
        "access" = none ∧
      dictGet (CookieTokenRefreshView.post debug issuer request).data
        "detail" = some "Token refreshed") := by
  constructor
  · intro hok
    rw [obtainPair_post_ok_eq debug issuer request hok]
    refine ⟨?_, ?_, ?_, ?_, ?_⟩
    · intro hf
      split_ifs <;> simp_all
    · intro hf
      split_ifs <;> simp_all
    · simp [dictGet_dictSet, dictGet_dictPop]
    · simp [dictGet_dictSet, dictGet_dictPop]
    · simp [dictGet_dictSet]
  · intro hok
    rw [refresh_post_ok_eq debug issuer request hok]
    refine ⟨?_, ?_, ?_⟩
    · intro hf
      split_ifs <;> simp_all
    · simp [dictGet_dictSet, dictGet_dictPop]
    · simp [dictGet_dictSet]

/-- Witness for C10 at a concrete OK issuer response with no token fields. -/
theorem C10_witness :
    "access_token" ∉ (CookieTokenObtainPairView.post false
      (fun _ => ⟨200, []⟩) ⟨[], []⟩).cookies.map (fun c => c.key) ∧
    dictGet (CookieTokenObtainPairView.post false
      (fun _ => ⟨200, []⟩) ⟨[], []⟩).data "detail"
        = some "Login successful" ∧
    (CookieTokenRefreshView.post false
      (fun _ => ⟨200, []⟩) ⟨[], []⟩).cookies = [] ∧
    dictGet (CookieTokenRefreshView.post false
      (fun _ => ⟨200, []⟩) ⟨[], []⟩).data "detail"
        = some "Token refreshed" :=
  ⟨((C10_missing_token_field_tolerated false
      (fun _ => ⟨200, []⟩) ⟨[], []⟩).1 rfl).1 rfl,
   ((C10_missing_token_field_tolerated false
      (fun _ => ⟨200, []⟩) ⟨[], []⟩).1 rfl).2.2.2.2,
   ((C10_missing_token_field_tolerated false
      (fun _ => ⟨200, []⟩) ⟨[], []⟩).2 rfl).1 rfl,
   ((C10_missing_token_field_tolerated false
      (fun _ => ⟨200, []⟩) ⟨[], []⟩).2 rfl).2.2⟩

end Embla
